import Mathlib

set_option maxRecDepth 100000

/-!
Verification of `tailwind.config.ts`: a static Tailwind CSS configuration
declaring a color table (`extraColors`), two safelist regular expressions
derived from the table's keys, content-scan globs and a dark-mode flag.

The embedding follows the source file:
* the two shared constants `TAG_PURPLE` and `TAG_CYAN`;
* `extraColorsSyn` is the object literal as written, a value being either a
  string literal or a reference to one of the two constants;
* `extraColors` is the resolved table (constants substituted), matching the
  runtime value of the TS object;
* the two safelist patterns are modelled both as their source strings (the
  interpolated template literals) and as star-free regular expressions with
  an executable matching function `accepts`;
* the exported configuration is the structure `TailwindConfig`.
-/

/-- The shared purple constant `TAG_PURPLE` from the source. -/
def TAG_PURPLE : String := "#7B61FF"

/-- The shared cyan constant `TAG_CYAN` from the source. -/
def TAG_CYAN : String := "#0CAFC6"

/-- Names of the two shared color constants. -/
inductive ConstName : Type where
  | purple : ConstName
  | cyan : ConstName
deriving DecidableEq

/-- The value of each shared constant, as in the source. -/
def constVal : ConstName → String
  | .purple => TAG_PURPLE
  | .cyan => TAG_CYAN

/-- A value in the `extraColors` object literal: either an independent string
literal or a reference to one of the two shared constants. -/
inductive ColorVal : Type where
  | strLit : String → ColorVal
  | ref : ConstName → ColorVal
deriving DecidableEq

/-- Whether a color value is a reference to a shared constant. -/
def ColorVal.isRef : ColorVal → Bool
  | .strLit _ => false
  | .ref _ => true

/-- The `extraColors` object literal exactly as written in the source,
with constant references kept symbolic and keys in insertion order. -/
def extraColorsSyn : List (String × ColorVal) :=
  [("Function", .strLit "#056CF0"),
   ("Variable", .strLit "#7E57C0"),
   ("Class", .strLit "#20B44B"),
   ("Enum", .strLit "#22ABB0"),
   ("Interface", .strLit "#D2A064"),
   ("TypeAlias", .strLit "#A4478C"),
   ("Namespace", .strLit "#D25646"),
   ("new", .ref .purple),
   ("abstract", .ref .cyan),
   ("deprecated", .strLit "#DC2626"),
   ("writeonly", .ref .purple),
   ("readonly", .ref .purple),
   ("protected", .ref .purple),
   ("private", .ref .purple),
   ("optional", .ref .cyan),
   ("permissions", .ref .cyan),
   ("other", .strLit "#57534E")]

/-- Resolve a color value under an assignment of the shared constants. -/
def resolveVal (f : ConstName → String) : ColorVal → String
  | .strLit s => s
  | .ref c => f c

/-- The color table resolved under an assignment of the shared constants. -/
def resolveColors (f : ConstName → String) : List (String × String) :=
  extraColorsSyn.map (fun p => (p.1, resolveVal f p.2))

/-- The runtime value of `extraColors`: the table resolved at the actual
values of `TAG_PURPLE` and `TAG_CYAN`. -/
def extraColors : List (String × String) := resolveColors constVal

/-- `Object.keys(extraColors)`: the keys in insertion order. -/
def extraColorKeys : List String := extraColors.map Prod.fst

/-- Source string of the first safelist regular expression, built by the
template literal interpolating the joined keys. -/
def textSource : String :=
  "^text-(" ++ String.intercalate "|" extraColorKeys ++ ")$"

/-- Source string of the second safelist regular expression.  In the TS
template literal the escape `\/` denotes the literal character `/`. -/
def bgSource : String :=
  "^bg-(" ++ String.intercalate "|" extraColorKeys ++ ")/15$"

/-- Star-free regular expressions, sufficient for the two safelist
patterns (anchored literals and an alternation of literals). -/
inductive Regex : Type where
  | emp : Regex
  | eps : Regex
  | char : Char → Regex
  | seq : Regex → Regex → Regex
  | alt : Regex → Regex → Regex
deriving DecidableEq

/-- Executable matching of a whole character list against a regular
expression (the source patterns are anchored with `^`/`$`, so RegExp.test
on them is whole-string matching). -/
def accepts : Regex → List Char → Bool
  | .emp, _ => false
  | .eps, s => s.isEmpty
  | .char c, s =>
      match s with
      | [d] => c == d
      | _ => false
  | .seq a b, s =>
      (List.range (s.length + 1)).any
        (fun i => accepts a (s.take i) && accepts b (s.drop i))
  | .alt a b, s => accepts a s || accepts b s

/-- The regular expression matching exactly the literal word `w`. -/
def litRe (w : List Char) : Regex :=
  w.foldr (fun c r => .seq (.char c) r) .eps

/-- The alternation of the literal words in `ws`. -/
def altOf (ws : List (List Char)) : Regex :=
  ws.foldr (fun w r => .alt (litRe w) r) .emp

/-- The compiled first safelist pattern `^text-(k1|...|kn)$`. -/
def textRe : Regex :=
  .seq (litRe "text-".data) (altOf (extraColorKeys.map String.data))

/-- The compiled second safelist pattern `^bg-(k1|...|kn)/15$`. -/
def bgRe : Regex :=
  .seq (litRe "bg-".data)
    (.seq (altOf (extraColorKeys.map String.data)) (litRe "/15".data))

/-- A JS `RegExp` object: its source string and its compiled form. -/
structure RegexObj : Type where
  source : String
  re : Regex
deriving DecidableEq

/-- One entry of the `safelist` array: an object with a `pattern` field. -/
structure SafelistItem : Type where
  pattern : RegexObj
deriving DecidableEq

/-- The `theme.extend` object. -/
structure ThemeExtend : Type where
  colors : List (String × String)
deriving DecidableEq

/-- The `theme` object. -/
structure Theme : Type where
  extend : ThemeExtend
deriving DecidableEq

/-- The exported configuration value: exactly the four fields of the
default export, in source order. -/
structure TailwindConfig : Type where
  content : List String
  safelist : List SafelistItem
  theme : Theme
  darkMode : String
deriving DecidableEq

/-- Evaluation of the module body: constructs the exported configuration.
It is a pure total function of no inputs. -/
def mkConfig : Unit → TailwindConfig :=
  fun _ =>
    ⟨["./src/html/**/*.rs", "./src/html/templates/*.hbs"],
     [⟨⟨textSource, textRe⟩⟩, ⟨⟨bgSource, bgRe⟩⟩],
     ⟨⟨extraColors⟩⟩,
     "class"⟩

/-- The exported configuration value. -/
def tailwindConfig : TailwindConfig := mkConfig ()

theorem accepts_eps {s : List Char} : accepts .eps s = true ↔ s = [] := by
  simp [accepts, List.isEmpty_iff]

theorem accepts_char {c : Char} {s : List Char} :
    accepts (.char c) s = true ↔ s = [c] := by
  cases s with
  | nil => simp [accepts]
  | cons d t =>
      cases t with
      | nil =>
          simp only [accepts, beq_iff_eq, List.cons.injEq, and_true]
          exact eq_comm
      | cons e u => simp [accepts]

theorem accepts_seq {a b : Regex} {s : List Char} :
    accepts (.seq a b) s = true ↔
      ∃ u v, s = u ++ v ∧ accepts a u = true ∧ accepts b v = true := by
  constructor
  · intro h
    simp only [accepts, List.any_eq_true, Bool.and_eq_true] at h
    obtain ⟨i, _, ha, hb⟩ := h
    exact ⟨s.take i, s.drop i, (List.take_append_drop i s).symm, ha, hb⟩
  · rintro ⟨u, v, rfl, ha, hb⟩
    simp only [accepts, List.any_eq_true, Bool.and_eq_true]
    refine ⟨u.length, ?_, ?_, ?_⟩
    · simp [List.mem_range, List.length_append]
      omega
    · rw [List.take_left]; exact ha
    · rw [List.drop_left]; exact hb

theorem accepts_litRe {w s : List Char} : accepts (litRe w) s = true ↔ s = w := by
  induction w generalizing s with
  | nil => exact accepts_eps
  | cons c w ih =>
      show accepts (.seq (.char c) (litRe w)) s = true ↔ _
      rw [accepts_seq]
      constructor
      · rintro ⟨u, v, rfl, hu, hv⟩
        rw [accepts_char.mp hu, ih.mp hv]
        rfl
      · rintro rfl
        exact ⟨[c], w, rfl, accepts_char.mpr rfl, ih.mpr rfl⟩

theorem accepts_altOf {ws : List (List Char)} {s : List Char} :
    accepts (altOf ws) s = true ↔ s ∈ ws := by
  induction ws with
  | nil => simp [altOf, accepts]
  | cons w ws ih =>
      show (accepts (litRe w) s || accepts (altOf ws) s) = true ↔ _
      rw [Bool.or_eq_true, accepts_litRe, ih, List.mem_cons]

theorem accepts_textRe_iff {s : List Char} :
    accepts textRe s = true ↔
      ∃ L ∈ extraColorKeys, s = "text-".data ++ L.data := by
  rw [textRe, accepts_seq]
  constructor
  · rintro ⟨u, v, rfl, hu, hv⟩
    rw [accepts_litRe.mp hu]
    obtain ⟨L, hL, hLv⟩ := List.mem_map.mp (accepts_altOf.mp hv)
    exact ⟨L, hL, by rw [hLv]⟩
  · rintro ⟨L, hL, rfl⟩
    exact ⟨"text-".data, L.data, rfl, accepts_litRe.mpr rfl,
      accepts_altOf.mpr (List.mem_map.mpr ⟨L, hL, rfl⟩)⟩

theorem accepts_bgRe_iff {s : List Char} :
    accepts bgRe s = true ↔
      ∃ L ∈ extraColorKeys, s = "bg-".data ++ (L.data ++ "/15".data) := by
  rw [bgRe, accepts_seq]
  constructor
  · rintro ⟨u, v, rfl, hu, hv⟩
    rw [accepts_litRe.mp hu]
    obtain ⟨x, y, rfl, hx, hy⟩ := accepts_seq.mp hv
    obtain ⟨L, hL, hLx⟩ := List.mem_map.mp (accepts_altOf.mp hx)
    rw [accepts_litRe.mp hy, ← hLx]
    exact ⟨L, hL, rfl⟩
  · rintro ⟨L, hL, rfl⟩
    refine ⟨"bg-".data, L.data ++ "/15".data, rfl, accepts_litRe.mpr rfl, ?_⟩
    exact accepts_seq.mpr ⟨L.data, "/15".data, rfl,
      accepts_altOf.mpr (List.mem_map.mpr ⟨L, hL, rfl⟩), accepts_litRe.mpr rfl⟩

theorem accepts_textRe_string {s : String} :
    accepts textRe s.data = true ↔ ∃ L ∈ extraColorKeys, s = "text-" ++ L := by
  rw [accepts_textRe_iff]
  constructor
  · rintro ⟨L, hL, h⟩
    exact ⟨L, hL, String.ext (by rw [h, String.data_append])⟩
  · rintro ⟨L, hL, rfl⟩
    exact ⟨L, hL, String.data_append _ _⟩

theorem accepts_bgRe_string {s : String} :
    accepts bgRe s.data = true ↔ ∃ L ∈ extraColorKeys, s = "bg-" ++ L ++ "/15" := by
  rw [accepts_bgRe_iff]
  constructor
  · rintro ⟨L, hL, h⟩
    refine ⟨L, hL, String.ext ?_⟩
    rw [h, String.data_append, String.data_append, List.append_assoc]
  · rintro ⟨L, hL, rfl⟩
    exact ⟨L, hL, by
      rw [String.data_append, String.data_append, List.append_assoc]⟩

/-- Split a character list on the pipe character, as the alternation of a
regex source string separates its branches. -/
def splitOnPipe : List Char → List (List Char)
  | [] => [[]]
  | c :: rest =>
      match splitOnPipe rest with
      | [] => [[c]]
      | w :: ws => if c = '|' then [] :: w :: ws else (c :: w) :: ws

/-- The characters of `src` strictly between the fixed prefix `pre` and the
fixed suffix `post`: the alternation segment of a pattern source string. -/
def altSegment (src pre post : String) : List Char :=
  let m := src.data.drop pre.data.length
  m.take (m.length - post.data.length)

/-- Whether a character is a hexadecimal digit. -/
def isHexDigitB (c : Char) : Bool := "0123456789abcdefABCDEF".data.contains c

/-- Whether a string is a `#` followed by exactly six hexadecimal digits. -/
def isHex6 (s : String) : Bool :=
  match s.data with
  | '#' :: rest => rest.length == 6 && rest.all isHexDigitB
  | _ => false

/-- C1: for every label `L` in the color table, the safelist's first pattern
matches the literal string `text-L` and its second pattern matches the
literal string `bg-L/15`. -/
theorem claim_C1 (L : String) (h : L ∈ extraColorKeys) :
    ∃ p1 p2, tailwindConfig.safelist = [p1, p2] ∧
      accepts p1.pattern.re ("text-" ++ L).data = true ∧
      accepts p2.pattern.re ("bg-" ++ L ++ "/15").data = true := by
  refine ⟨⟨⟨textSource, textRe⟩⟩, ⟨⟨bgSource, bgRe⟩⟩, rfl, ?_, ?_⟩
  · exact accepts_textRe_string.mpr ⟨L, h, rfl⟩
  · exact accepts_bgRe_string.mpr ⟨L, h, rfl⟩

/-- Witness for C1 at the label `Function`. -/
theorem claim_C1_witness :
    "Function" ∈ extraColorKeys ∧
      ∃ p1 p2, tailwindConfig.safelist = [p1, p2] ∧
        accepts p1.pattern.re ("text-" ++ "Function").data = true ∧
        accepts p2.pattern.re ("bg-" ++ "Function" ++ "/15").data = true :=
  ⟨by decide, claim_C1 "Function" (by decide)⟩

/-- C2: the alternation segment of each safelist pattern source string holds
exactly the keys of the color table, in order, and a label is covered by a
safelist pattern if and only if it is a key of the color table. -/
theorem claim_C2 :
    (splitOnPipe (altSegment textSource "^text-(" ")$") =
        extraColorKeys.map String.data ∧
      splitOnPipe (altSegment bgSource "^bg-(" ")/15$") =
        extraColorKeys.map String.data) ∧
    ∀ L : String,
      (accepts textRe ("text-" ++ L).data = true ↔ L ∈ extraColorKeys) ∧
      (accepts bgRe ("bg-" ++ L ++ "/15").data = true ↔ L ∈ extraColorKeys) := by
  refine ⟨⟨by decide, by decide⟩, fun L => ⟨⟨?_, ?_⟩, ⟨?_, ?_⟩⟩⟩
  · intro h
    obtain ⟨K, hK, hEq⟩ := accepts_textRe_string.mp h
    have hd := congrArg String.data hEq
    rw [String.data_append, String.data_append] at hd
    rw [String.ext (List.append_cancel_left hd)]
    exact hK
  · intro h
    exact accepts_textRe_string.mpr ⟨L, h, rfl⟩
  · intro h
    obtain ⟨K, hK, hEq⟩ := accepts_bgRe_string.mp h
    have hd := congrArg String.data hEq
    rw [String.data_append, String.data_append, String.data_append,
      String.data_append] at hd
    rw [String.ext (List.append_cancel_left (List.append_cancel_right hd))]
    exact hK
  · intro h
    exact accepts_bgRe_string.mpr ⟨L, h, rfl⟩

/-- C3 counterexample: it is not the case that exactly the labels `new` and
`abstract` are bound to shared-constant references: `writeonly` (among
others) is also a constant reference. -/
theorem claim_C3_counterexample :
    ¬ ∀ p ∈ extraColorsSyn,
        (p.2.isRef = true ↔ (p.1 = "new" ∨ p.1 = "abstract")) := by
  decide

/-- C3 amended: exactly the five labels `new`, `writeonly`, `readonly`,
`protected`, `private` are bound to the purple constant, exactly the three
labels `abstract`, `optional`, `permissions` are bound to the cyan
constant, and every other label is bound to an independent literal. -/
theorem claim_C3_amended :
    ∀ p ∈ extraColorsSyn,
      (p.2 = ColorVal.ref ConstName.purple ↔
        p.1 ∈ ["new", "writeonly", "readonly", "protected", "private"]) ∧
      (p.2 = ColorVal.ref ConstName.cyan ↔
        p.1 ∈ ["abstract", "optional", "permissions"]) ∧
      (p.2.isRef = false ↔
        p.1 ∈ ["Function", "Variable", "Class", "Enum", "Interface",
          "TypeAlias", "Namespace", "deprecated", "other"]) := by
  decide

/-- Witness for the amended C3 at the entry for `writeonly`. -/
theorem claim_C3_amended_witness :
    ("writeonly", ColorVal.ref ConstName.purple).2 =
        ColorVal.ref ConstName.purple ↔
      ("writeonly", ColorVal.ref ConstName.purple).1 ∈
        ["new", "writeonly", "readonly", "protected", "private"] :=
  (claim_C3_amended ("writeonly", ColorVal.ref ConstName.purple)
    (by decide)).1

/-- C4: under any assignment `f` of the shared constants, the resolved color
table keeps exactly the same labels in the same order; every entry bound to
a constant reference resolves to the assigned value of that constant, and
every entry bound to a literal resolves to that literal, independent of
`f`. -/
theorem claim_C4 (f : ConstName → String) :
    (resolveColors f).map Prod.fst = extraColorKeys ∧
    ∀ L v, (L, v) ∈ extraColorsSyn →
      (∀ c, v = ColorVal.ref c → (L, f c) ∈ resolveColors f) ∧
      (∀ s, v = ColorVal.strLit s → (L, s) ∈ resolveColors f) := by
  refine ⟨?_, fun L v h => ⟨?_, ?_⟩⟩
  · simp only [resolveColors, extraColorKeys, extraColors, List.map_map]
    rfl
  · rintro c rfl
    exact List.mem_map.mpr ⟨(L, ColorVal.ref c), h, rfl⟩
  · rintro s rfl
    exact List.mem_map.mpr ⟨(L, ColorVal.strLit s), h, rfl⟩

/-- Witness for C4 at the assignment sending both constants to `#000000`,
evaluated on the aliased entry `new` and the literal entry `other`. -/
theorem claim_C4_witness :
    ("new", "#000000") ∈ resolveColors (fun _ => "#000000") ∧
      ("other", "#57534E") ∈ resolveColors (fun _ => "#000000") :=
  ⟨((claim_C4 (fun _ => "#000000")).2 "new" (ColorVal.ref ConstName.purple)
      (by decide)).1 ConstName.purple rfl,
    ((claim_C4 (fun _ => "#000000")).2 "other" (ColorVal.strLit "#57534E")
      (by decide)).2 "#57534E" rfl⟩

/-- C5: the first safelist pattern matches a string precisely when it is
`text-L` for a color-table label `L`; in particular it matches
`text-Function` and rejects `text-Function2`. -/
theorem claim_C5 :
    (∀ s : String, accepts textRe s.data = true ↔
      ∃ L ∈ extraColorKeys, s = "text-" ++ L) ∧
    accepts textRe "text-Function".data = true ∧
    accepts textRe "text-Function2".data = false :=
  ⟨fun _ => accepts_textRe_string, by decide, by decide⟩

/-- C6: every value of the resolved color table is a `#` followed by exactly
six hexadecimal digits. -/
theorem claim_C6 : ∀ p ∈ extraColors, isHex6 p.2 = true := by decide

/-- Witness for C6 at the entry for `Function`. -/
theorem claim_C6_witness : isHex6 ("Function", "#056CF0").2 = true :=
  claim_C6 ("Function", "#056CF0") (by decide)

/-- C7: the 17 labels of the color table are pairwise distinct. -/
theorem claim_C7 : extraColorKeys.Nodup ∧ extraColorKeys.length = 17 := by
  exact ⟨by decide, by decide⟩

/-- C8: the exported configuration consists of the two content globs, the
two safelist pattern entries, the theme color extensions, and the dark-mode
selector `class`. -/
theorem claim_C8 :
    tailwindConfig.content =
        ["./src/html/**/*.rs", "./src/html/templates/*.hbs"] ∧
    tailwindConfig.content.length = 2 ∧
    tailwindConfig.safelist = [⟨⟨textSource, textRe⟩⟩, ⟨⟨bgSource, bgRe⟩⟩] ∧
    tailwindConfig.safelist.length = 2 ∧
    tailwindConfig.theme = ⟨⟨extraColors⟩⟩ ∧
    tailwindConfig.darkMode = "class" :=
  ⟨rfl, rfl, rfl, rfl, rfl, rfl⟩

/-- C9: evaluating the module is deterministic, and yields exactly this
literal configuration value: the globs, the two interpolated pattern source
strings, the fully resolved color table and the dark-mode selector. -/
theorem claim_C9 :
    mkConfig () = mkConfig () ∧
    mkConfig () =
      ⟨["./src/html/**/*.rs", "./src/html/templates/*.hbs"],
       [⟨⟨"^text-(Function|Variable|Class|Enum|Interface|TypeAlias|Namespace|new|abstract|deprecated|writeonly|readonly|protected|private|optional|permissions|other)$",
           textRe⟩⟩,
        ⟨⟨"^bg-(Function|Variable|Class|Enum|Interface|TypeAlias|Namespace|new|abstract|deprecated|writeonly|readonly|protected|private|optional|permissions|other)/15$",
           bgRe⟩⟩],
       ⟨⟨[("Function", "#056CF0"), ("Variable", "#7E57C0"),
          ("Class", "#20B44B"), ("Enum", "#22ABB0"),
          ("Interface", "#D2A064"), ("TypeAlias", "#A4478C"),
          ("Namespace", "#D25646"), ("new", "#7B61FF"),
          ("abstract", "#0CAFC6"), ("deprecated", "#DC2626"),
          ("writeonly", "#7B61FF"), ("readonly", "#7B61FF"),
          ("protected", "#7B61FF"), ("private", "#7B61FF"),
          ("optional", "#0CAFC6"), ("permissions", "#0CAFC6"),
          ("other", "#57534E")]⟩⟩,
       "class"⟩ :=
  ⟨rfl, by decide⟩

/-- C10: the second safelist pattern matches a string precisely when it is
`bg-L/15` for a color-table label `L`; the `/15` suffix is mandatory and
exact. -/
theorem claim_C10 :
    (∀ s : String, accepts bgRe s.data = true ↔
      ∃ L ∈ extraColorKeys, s = "bg-" ++ L ++ "/15") ∧
    accepts bgRe "bg-Function/15".data = true ∧
    accepts bgRe "bg-Function".data = false ∧
    accepts bgRe "bg-Function/25".data = false ∧
    accepts bgRe "bg-Function/150".data = false :=
  ⟨fun _ => accepts_bgRe_string, by decide, by decide, by decide, by decide⟩
